import Mathlib

/-!
Shallow embedding of the MIDI connection-lifecycle manager in
src/src-tauri/src/lib.rs (crownemmanuel/CueBoard).

The platform MIDI layer (the midir crate) is treated as an opaque
capability, supplied as an environment record per direction:
  - `new` models `midir::MidiInput::new` / `midir::MidiOutput::new`
    followed by `.ports()`: either the subsystem handle fails to be
    created (the error string) or a list of ports is visible;
  - `portName` models `port_name(port)`;
  - `connect` models `connect(port, ...)`.

The two process-wide slots `INPUT_CONN` / `OUTPUT_CONN`
(`Mutex<Option<...>>`) become the fields of `MidiState`; a poisoned
mutex (the `map_err(|_| "Lock poisoned")` paths) is a persistent
boolean per slot.  Rust `u8` bytes and the `u128` timestamp are
modelled as `Nat`; connection handles are abstract identities.

Each state-mutating command additionally returns a trace: the open
commands record the slot events in temporal order (`released` when the
old handle is dropped by `*guard = None`, `stored` when the new one is
written), and `midi_send` records every call made to the transmit
primitive of the platform layer, so that ordering and call-count
claims are statable.
-/

namespace CueBoard

/-- Mirrors struct MidiDeviceInfo (lib.rs lines 9-14). -/
structure MidiDeviceInfo where
  id : Nat
  name : String
  kind : String
deriving DecidableEq, Repr

/-- Mirrors struct MidiMessage (lib.rs lines 16-20): the payload emitted
to the window for each inbound hardware message. -/
structure MidiMessage where
  timestamp_ms : Nat
  data : List Nat
deriving DecidableEq, Repr

/-- Mirrors struct MidiSnapshot (lib.rs lines 22-26). -/
structure MidiSnapshot where
  inputs : List MidiDeviceInfo
  outputs : List MidiDeviceInfo
deriving DecidableEq, Repr

/-- An abstract platform port (midir::MidiInputPort / MidiOutputPort). -/
structure MidiPort where
  pid : Nat
deriving DecidableEq, Repr

/-- An abstract live input connection handle (midir::MidiInputConnection). -/
structure MidiInputConnection where
  connId : Nat
deriving DecidableEq, Repr

/-- An abstract live output connection handle (midir::MidiOutputConnection). -/
structure MidiOutputConnection where
  connId : Nat
deriving DecidableEq, Repr

/-- The platform MIDI capability for the input direction, one call's view:
`new` is MidiInput::new plus .ports() (error when the subsystem handle
cannot be created), `portName` is port_name, `connect` is connect. -/
structure MidiInputEnv where
  new : Except String (List MidiPort)
  portName : MidiPort → Except String String
  connect : MidiPort → Except String MidiInputConnection

/-- The platform MIDI capability for the output direction. -/
structure MidiOutputEnv where
  new : Except String (List MidiPort)
  portName : MidiPort → Except String String
  connect : MidiPort → Except String MidiOutputConnection

/-- The process-wide mutable state: the contents of the statics
INPUT_CONN and OUTPUT_CONN (lib.rs lines 50-51), plus one persistent
poison flag per mutex (a lock() that returns Err is modelled by the
flag being true; the code maps it to the "Lock poisoned" error). -/
structure MidiState where
  inputConn : Option MidiInputConnection
  outputConn : Option MidiOutputConnection
  inputPoisoned : Bool
  outputPoisoned : Bool
deriving DecidableEq, Repr

/-- A slot trace event: `released c` records that the previously held
handle c was dropped (its teardown ran to completion, synchronously)
by an assignment of None; `stored c` records that c was written into
the slot. -/
inductive SlotEvent (C : Type) where
  | released (conn : C)
  | stored (conn : C)
deriving DecidableEq, Repr

/-- The events produced by overwriting a slot holding `old` with None:
dropping Some c tears c down, dropping None does nothing. -/
def releaseEvents {C : Type} : Option C → List (SlotEvent C)
  | none => []
  | some c => [.released c]

/-- Mirrors `unwrap_or_else(|_| "Unknown".to_string())` applied to a
port_name result (lib.rs lines 33 and 44). -/
def nameOrUnknown : Except String String → String
  | .ok n => n
  | .error _ => "Unknown"

/-- Mirrors midi_list_inputs (lib.rs lines 28-37): fails only when the
subsystem handle cannot be created; otherwise enumerates the visible
ports in platform order, id = position, name via nameOrUnknown. -/
def midi_list_inputs (env : MidiInputEnv) : Except String (List MidiDeviceInfo) :=
  match env.new with
  | .error e => .error e
  | .ok ports =>
      .ok (ports.enum.map fun ip =>
        { id := ip.1, name := nameOrUnknown (env.portName ip.2), kind := "input" })

/-- Mirrors midi_list_outputs (lib.rs lines 39-48). -/
def midi_list_outputs (env : MidiOutputEnv) : Except String (List MidiDeviceInfo) :=
  match env.new with
  | .error e => .error e
  | .ok ports =>
      .ok (ports.enum.map fun ip =>
        { id := ip.1, name := nameOrUnknown (env.portName ip.2), kind := "output" })

/-- Mirrors midi_open_input (lib.rs lines 53-88).  Order of the source:
create the subsystem handle, get the ports, index-check
(`ports.get(input_index).ok_or_else(...)`), lock and drop the old
connection (`*guard = None`), connect (registering the callback),
lock again and store the new connection.  The second lock observes the
same persistent poison flag as the first in this sequential model.
Returns (result, new state, slot events in temporal order). -/
def midi_open_input (env : MidiInputEnv) (s : MidiState) (input_index : Nat) :
    Except String Unit × MidiState × List (SlotEvent MidiInputConnection) :=
  match env.new with
  | .error e => (.error e, s, [])
  | .ok ports =>
    match ports[input_index]? with
    | none => (.error "Invalid input index", s, [])
    | some port =>
      if s.inputPoisoned then (.error "Lock poisoned", s, [])
      else
        match env.connect port with
        | .error e => (.error e, { s with inputConn := none }, releaseEvents s.inputConn)
        | .ok conn =>
          if s.inputPoisoned then
            (.error "Lock poisoned", { s with inputConn := none }, releaseEvents s.inputConn)
          else
            (.ok (), { s with inputConn := some conn },
              releaseEvents s.inputConn ++ [.stored conn])

/-- Mirrors midi_open_output (lib.rs lines 90-104): index-check, lock
and drop the old connection, connect, lock and store. -/
def midi_open_output (env : MidiOutputEnv) (s : MidiState) (output_index : Nat) :
    Except String Unit × MidiState × List (SlotEvent MidiOutputConnection) :=
  match env.new with
  | .error e => (.error e, s, [])
  | .ok ports =>
    match ports[output_index]? with
    | none => (.error "Invalid output index", s, [])
    | some port =>
      if s.outputPoisoned then (.error "Lock poisoned", s, [])
      else
        match env.connect port with
        | .error e => (.error e, { s with outputConn := none }, releaseEvents s.outputConn)
        | .ok conn =>
          if s.outputPoisoned then
            (.error "Lock poisoned", { s with outputConn := none }, releaseEvents s.outputConn)
          else
            (.ok (), { s with outputConn := some conn },
              releaseEvents s.outputConn ++ [.stored conn])

/-- Mirrors midi_send (lib.rs lines 106-114).  `transmit` is the
platform primitive `conn.send(&bytes)` with its error already rendered
by to_string (the `map_err(|e| e.to_string())`).  The third component
records every transmit call made (connection, bytes), in order. -/
def midi_send (transmit : MidiOutputConnection → List Nat → Except String Unit)
    (s : MidiState) (bytes : List Nat) :
    Except String Unit × MidiState × List (MidiOutputConnection × List Nat) :=
  if s.outputPoisoned then (.error "Lock poisoned", s, [])
  else
    match s.outputConn with
    | some conn => (transmit conn bytes, s, [(conn, bytes)])
    | none => (.error "Output not connected", s, [])

/-- Mirrors midi_refresh (lib.rs lines 116-119): struct-literal field
order evaluates the input enumeration first, then the output one, each
behind the ? operator. -/
def midi_refresh (ie : MidiInputEnv) (oe : MidiOutputEnv) : Except String MidiSnapshot :=
  match midi_list_inputs ie with
  | .error e => .error e
  | .ok ins =>
    match midi_list_outputs oe with
    | .error e => .error e
    | .ok outs => .ok { inputs := ins, outputs := outs }

/-- The observable behaviour of one invocation of the input callback
closure (lib.rs lines 70-79): either the thread panicked, or the
callback completed having made the listed emit calls (topic, payload). -/
inductive CallbackOutcome where
  | panicked
  | completed (emits : List (String × MidiMessage))
deriving DecidableEq, Repr

/-- Mirrors the callback closure registered by midi_open_input (lib.rs
lines 70-79).  `now` models SystemTime::now().duration_since(UNIX_EPOCH)
in milliseconds: ok when the wall clock is at or after the Unix epoch,
error otherwise, and the source calls .unwrap() on it, so the error case
panics.  `emitResult` models the return of window.emit, which the source
discards with `let _ =`. -/
def inputCallback (now : Except Unit Nat) (emitResult : Except Unit Unit)
    (message : List Nat) : CallbackOutcome :=
  match now with
  | .error _ => .panicked
  | .ok t =>
      let payload : MidiMessage := { timestamp_ms := t, data := message }
      let _ := emitResult
      .completed [("midi://message", payload)]

/-! Concrete sample inputs used by the witness theorems. -/

/-- Three visible platform ports. -/
def samplePorts : List MidiPort := [{ pid := 0 }, { pid := 1 }, { pid := 2 }]

/-- An input-direction platform where the handle is created, port 1 has
no resolvable name, and connecting to port p yields handle p.pid + 10. -/
def sampleInEnv : MidiInputEnv :=
  { new := .ok samplePorts
    portName := fun p => if p.pid == 1 then .error "nameless" else .ok "InPort"
    connect := fun p => .ok { connId := p.pid + 10 } }

/-- An output-direction platform mirroring sampleInEnv, handles p.pid + 20. -/
def sampleOutEnv : MidiOutputEnv :=
  { new := .ok samplePorts
    portName := fun p => if p.pid == 1 then .error "nameless" else .ok "OutPort"
    connect := fun p => .ok { connId := p.pid + 20 } }

/-- A second output-direction platform view, handles p.pid + 30. -/
def sampleOutEnv2 : MidiOutputEnv :=
  { new := .ok samplePorts
    portName := fun _ => .ok "OutPort"
    connect := fun p => .ok { connId := p.pid + 30 } }

/-- An input-direction platform whose subsystem handle cannot be created. -/
def downInEnv : MidiInputEnv :=
  { new := .error "driver unavailable"
    portName := fun _ => .error "driver unavailable"
    connect := fun _ => .error "driver unavailable" }

/-- An output-direction platform whose subsystem handle cannot be created. -/
def downOutEnv : MidiOutputEnv :=
  { new := .error "driver unavailable"
    portName := fun _ => .error "driver unavailable"
    connect := fun _ => .error "driver unavailable" }

/-- An input-direction platform where every connect attempt fails. -/
def failConnectInEnv : MidiInputEnv :=
  { new := .ok samplePorts
    portName := fun _ => .ok "InPort"
    connect := fun _ => .error "connect failed" }

/-- An output-direction platform where every connect attempt fails. -/
def failConnectOutEnv : MidiOutputEnv :=
  { new := .ok samplePorts
    portName := fun _ => .ok "OutPort"
    connect := fun _ => .error "connect refused" }

/-- The descriptors sampleInEnv enumerates to. -/
def sampleInputInfos : List MidiDeviceInfo :=
  [{ id := 0, name := "InPort", kind := "input" },
   { id := 1, name := "Unknown", kind := "input" },
   { id := 2, name := "InPort", kind := "input" }]

/-- The descriptors sampleOutEnv enumerates to. -/
def sampleOutputInfos : List MidiDeviceInfo :=
  [{ id := 0, name := "OutPort", kind := "output" },
   { id := 1, name := "Unknown", kind := "output" },
   { id := 2, name := "OutPort", kind := "output" }]

/-- A state with no live connection and healthy mutexes. -/
def sampleState : MidiState :=
  { inputConn := none, outputConn := none, inputPoisoned := false, outputPoisoned := false }

/-- A state holding a live connection in each slot, healthy mutexes. -/
def heldState : MidiState :=
  { inputConn := some { connId := 3 }, outputConn := some { connId := 4 },
    inputPoisoned := false, outputPoisoned := false }

/-- A state whose output mutex is poisoned. -/
def poisonedState : MidiState :=
  { inputConn := none, outputConn := none, inputPoisoned := false, outputPoisoned := true }

/-- A state with a live output connection, handle 7. -/
def connectedState : MidiState :=
  { inputConn := none, outputConn := some { connId := 7 },
    inputPoisoned := false, outputPoisoned := false }

/-- A transmit primitive that always succeeds. -/
def alwaysOkTransmit : MidiOutputConnection → List Nat → Except String Unit :=
  fun _ _ => .ok ()

/-- C4: every invocation of the input callback with the wall clock at or
after the Unix epoch (elapsed t milliseconds) completes with exactly one
emit call, carrying a byte-for-byte copy of the received message and the
timestamp t, whatever the result of the emit itself was (a delivery
failure is swallowed: the outcome does not depend on emitResult and is
never a panic). -/
theorem input_callback_emits_once (t : Nat) (emitResult : Except Unit Unit)
    (message : List Nat) :
    inputCallback (.ok t) emitResult message =
      .completed [("midi://message", { timestamp_ms := t, data := message })] := rfl

/-- C9: the callback unwraps the duration since the Unix epoch without a
guard: when the clock reads before the epoch the invocation panics and
nothing is emitted, and when it reads at or after the epoch the panic
branch is not taken (the invocation completes with its one emit call). -/
theorem input_callback_unguarded_unwrap :
    (∀ (emitResult : Except Unit Unit) (message : List Nat),
        inputCallback (.error ()) emitResult message = .panicked)
  ∧ (∀ (t : Nat) (emitResult : Except Unit Unit) (message : List Nat),
        inputCallback (.ok t) emitResult message =
          .completed [("midi://message", { timestamp_ms := t, data := message })]) :=
  ⟨fun _ _ => rfl, fun _ _ _ => rfl⟩

/-- C3 (amended): when the output mutex is not poisoned, midi_send fails
with the NotConnected error and makes no transmit call exactly when no
output connection is active; with an active connection it makes exactly
one transmit call carrying the bytes verbatim and returns the transmit
result unchanged (a platform failure is surfaced as the error); when the
mutex is poisoned it fails with the LockUnavailable error instead. -/
theorem midi_send_spec
    (transmit : MidiOutputConnection → List Nat → Except String Unit)
    (s : MidiState) (b : List Nat) (hp : s.outputPoisoned = false) :
    (s.outputConn = none →
        midi_send transmit s b = (.error "Output not connected", s, []))
  ∧ (∀ c, s.outputConn = some c →
        midi_send transmit s b = (transmit c b, s, [(c, b)]))
  ∧ (((midi_send transmit s b).1 = .error "Output not connected"
        ∧ (midi_send transmit s b).2.2 = []) ↔ s.outputConn = none)
  ∧ (∀ s2 : MidiState, s2.outputPoisoned = true →
        midi_send transmit s2 b = (.error "Lock poisoned", s2, [])) := by
  refine ⟨fun hc => by simp [midi_send, hp, hc], fun c hc => by simp [midi_send, hp, hc],
    ?_, fun s2 h2 => by simp [midi_send, h2]⟩
  rcases hc : s.outputConn with _ | c
  · simp [midi_send, hp, hc]
  · simp [midi_send, hp, hc]

/-- C3 witness: with a live output connection, handle 7, and a transmit
primitive that succeeds, a concrete send makes the one verbatim call. -/
theorem midi_send_spec_witness :
    midi_send alwaysOkTransmit connectedState [144, 60, 100] =
      (.ok (), connectedState, [({ connId := 7 }, [144, 60, 100])]) :=
  (midi_send_spec alwaysOkTransmit connectedState [144, 60, 100] rfl).2.1
    { connId := 7 } rfl

/-- C3 counterexample: with the output mutex poisoned and no output
connection active, a concrete send fails with the Lock poisoned error
rather than the NotConnected error, so as stated the claim (NotConnected
exactly when no output connection is active) fails at this input. -/
theorem midi_send_not_connected_iff_cex :
    poisonedState.outputConn = none
  ∧ (midi_send alwaysOkTransmit poisonedState [1]).1 = .error "Lock poisoned"
  ∧ (("Lock poisoned" : String) == "Output not connected") = false :=
  ⟨rfl, rfl, rfl⟩

/-- C7 (amended): every run of midi_send either succeeds, or fails with
the LockUnavailable error (poisoned mutex), or fails with the
NotConnected error (no active connection), or fails with exactly the
error the transmit primitive produced (DispatchError); no other failure
exists. -/
theorem midi_send_failure_kinds
    (transmit : MidiOutputConnection → List Nat → Except String Unit)
    (s : MidiState) (b : List Nat) :
    (midi_send transmit s b).1 = .ok ()
  ∨ (s.outputPoisoned = true ∧ (midi_send transmit s b).1 = .error "Lock poisoned")
  ∨ (s.outputPoisoned = false ∧ s.outputConn = none
      ∧ (midi_send transmit s b).1 = .error "Output not connected")
  ∨ (∃ c e, s.outputConn = some c ∧ transmit c b = .error e
      ∧ (midi_send transmit s b).1 = .error e) := by
  by_cases hp : s.outputPoisoned = true
  · exact Or.inr (Or.inl ⟨hp, by simp [midi_send, hp]⟩)
  · rcases hc : s.outputConn with _ | c
    · exact Or.inr (Or.inr (Or.inl
        ⟨by simpa using hp, rfl, by simp [midi_send, hp, hc]⟩))
    · rcases ht : transmit c b with e | u
      · exact Or.inr (Or.inr (Or.inr ⟨c, e, rfl, ht, by simp [midi_send, hp, hc, ht]⟩))
      · exact Or.inl (by simp [midi_send, hp, hc, ht])

/-- C7 counterexample: a concrete send against a poisoned output mutex
fails with the Lock poisoned error, which is neither the NotConnected
error string nor a transmit failure (no transmit call is made: the call
trace is empty, and the transmit primitive here never fails), so send
has a third failure kind beyond the two the claim allows. -/
theorem midi_send_failure_kinds_cex :
    (midi_send alwaysOkTransmit poisonedState []).1 = .error "Lock poisoned"
  ∧ (("Lock poisoned" : String) == "Output not connected") = false
  ∧ (midi_send alwaysOkTransmit poisonedState []).2.2 = [] :=
  ⟨rfl, rfl, rfl⟩

/-- C10: each command touches only its own slot: midi_open_input leaves
the output slot (content and poison flag) unchanged, midi_open_output
leaves the input slot unchanged, and midi_send leaves the whole state
unchanged (in particular the input slot).  midi_list_inputs,
midi_list_outputs and midi_refresh take no MidiState at all in this
embedding, mirroring that the source functions never touch the statics,
so they mutate neither slot by construction. -/
theorem commands_touch_only_their_slot (ie : MidiInputEnv) (oe : MidiOutputEnv)
    (transmit : MidiOutputConnection → List Nat → Except String Unit)
    (s : MidiState) (i j : Nat) (b : List Nat) :
    (midi_open_input ie s i).2.1.outputConn = s.outputConn
  ∧ (midi_open_input ie s i).2.1.outputPoisoned = s.outputPoisoned
  ∧ (midi_open_output oe s j).2.1.inputConn = s.inputConn
  ∧ (midi_open_output oe s j).2.1.inputPoisoned = s.inputPoisoned
  ∧ (midi_send transmit s b).2.1 = s := by
  refine ⟨?_, ?_, ?_, ?_, ?_⟩ <;>
    · simp only [midi_open_input, midi_open_output, midi_send]
      (repeat' split) <;> rfl

/-- C1: an open with a valid index, a successful connect and a healthy
mutex first releases whatever the slot held (the released event, from
the synchronous drop of the old handle, precedes the stored event in
the trace) and then stores the new handle; in particular two successive
open-output calls end with exactly the second connection live, the
first having been released before the second was stored. -/
theorem install_release_before_store
    (ie : MidiInputEnv) (oe1 oe2 : MidiOutputEnv) (s : MidiState)
    (i j1 j2 : Nat) (ips ops1 ops2 : List MidiPort) (ip op1 op2 : MidiPort)
    (ic : MidiInputConnection) (oc1 oc2 : MidiOutputConnection)
    (hie : ie.new = .ok ips) (hig : ips[i]? = some ip)
    (hic : ie.connect ip = .ok ic) (hinp : s.inputPoisoned = false)
    (hoe1 : oe1.new = .ok ops1) (hog1 : ops1[j1]? = some op1)
    (hoc1 : oe1.connect op1 = .ok oc1)
    (hoe2 : oe2.new = .ok ops2) (hog2 : ops2[j2]? = some op2)
    (hoc2 : oe2.connect op2 = .ok oc2) (honp : s.outputPoisoned = false) :
    midi_open_input ie s i =
      (.ok (), { s with inputConn := some ic },
        releaseEvents s.inputConn ++ [.stored ic])
  ∧ midi_open_output oe1 s j1 =
      (.ok (), { s with outputConn := some oc1 },
        releaseEvents s.outputConn ++ [.stored oc1])
  ∧ midi_open_output oe2 (midi_open_output oe1 s j1).2.1 j2 =
      (.ok (), { s with outputConn := some oc2 },
        [.released oc1, .stored oc2]) := by
  have h1 : midi_open_input ie s i =
      (.ok (), { s with inputConn := some ic },
        releaseEvents s.inputConn ++ [.stored ic]) := by
    simp [midi_open_input, hie, hig, hic, hinp]
  have h2 : midi_open_output oe1 s j1 =
      (.ok (), { s with outputConn := some oc1 },
        releaseEvents s.outputConn ++ [.stored oc1]) := by
    simp [midi_open_output, hoe1, hog1, hoc1, honp]
  have h3 : midi_open_output oe2 { s with outputConn := some oc1 } j2 =
      (.ok (), { s with outputConn := some oc2 },
        [.released oc1, .stored oc2]) := by
    simp [midi_open_output, hoe2, hog2, hoc2, honp, releaseEvents]
  exact ⟨h1, h2, by rw [h2]; exact h3⟩

/-- C1 witness: from a state holding input handle 3 and output handle 4,
opening input port 0 releases handle 3 before storing handle 10, and two
successive output opens (ports 1 then 2) leave exactly handle 32 live,
handle 21 having been released first. -/
theorem install_release_before_store_witness :
    midi_open_input sampleInEnv heldState 0 =
      (.ok (), { heldState with inputConn := some { connId := 10 } },
        [.released { connId := 3 }, .stored { connId := 10 }])
  ∧ midi_open_output sampleOutEnv heldState 1 =
      (.ok (), { heldState with outputConn := some { connId := 21 } },
        [.released { connId := 4 }, .stored { connId := 21 }])
  ∧ midi_open_output sampleOutEnv2 (midi_open_output sampleOutEnv heldState 1).2.1 2 =
      (.ok (), { heldState with outputConn := some { connId := 32 } },
        [.released { connId := 21 }, .stored { connId := 32 }]) :=
  install_release_before_store sampleInEnv sampleOutEnv sampleOutEnv2 heldState
    0 1 2 samplePorts samplePorts samplePorts { pid := 0 } { pid := 1 } { pid := 2 }
    { connId := 10 } { connId := 21 } { connId := 32 }
    rfl rfl rfl rfl rfl rfl rfl rfl rfl rfl rfl

/-- C2: an open with an index at or beyond the length of the freshly
enumerated port list fails with the InvalidIndex error and performs no
slot mutation at all: the state is returned unchanged and the slot event
trace is empty. -/
theorem open_invalid_index_is_noop
    (ie : MidiInputEnv) (oe : MidiOutputEnv) (s : MidiState) (i j : Nat)
    (ips ops : List MidiPort)
    (hie : ie.new = .ok ips) (hi : ips.length ≤ i)
    (hoe : oe.new = .ok ops) (hj : ops.length ≤ j) :
    midi_open_input ie s i = (.error "Invalid input index", s, [])
  ∧ midi_open_output oe s j = (.error "Invalid output index", s, []) := by
  have h1 : ips[i]? = none := List.getElem?_eq_none hi
  have h2 : ops[j]? = none := List.getElem?_eq_none hj
  exact ⟨by simp [midi_open_input, hie, h1], by simp [midi_open_output, hoe, h2]⟩

/-- C2 witness: with three enumerated ports, opening input index 5 and
output index 7 fails with the InvalidIndex errors and leaves the state
(holding live handles 3 and 4) untouched. -/
theorem open_invalid_index_is_noop_witness :
    midi_open_input sampleInEnv heldState 5 = (.error "Invalid input index", heldState, [])
  ∧ midi_open_output sampleOutEnv heldState 7 = (.error "Invalid output index", heldState, []) :=
  open_invalid_index_is_noop sampleInEnv sampleOutEnv heldState 5 7
    samplePorts samplePorts rfl (by decide) rfl (by decide)

/-- C8: when the index is valid but the platform connect fails, the open
returns the connect error with the old connection already released: the
slot ends empty (the prior content is not preserved or restored), the
release of the prior handle being the only slot event. -/
theorem open_connect_failure_leaves_slot_empty
    (ie : MidiInputEnv) (oe : MidiOutputEnv) (s : MidiState) (i j : Nat)
    (ips ops : List MidiPort) (ip op : MidiPort) (ei eo : String)
    (hie : ie.new = .ok ips) (hig : ips[i]? = some ip)
    (hic : ie.connect ip = .error ei) (hinp : s.inputPoisoned = false)
    (hoe : oe.new = .ok ops) (hog : ops[j]? = some op)
    (hoc : oe.connect op = .error eo) (honp : s.outputPoisoned = false) :
    midi_open_input ie s i =
      (.error ei, { s with inputConn := none }, releaseEvents s.inputConn)
  ∧ midi_open_output oe s j =
      (.error eo, { s with outputConn := none }, releaseEvents s.outputConn) := by
  exact ⟨by simp [midi_open_input, hie, hig, hic, hinp],
    by simp [midi_open_output, hoe, hog, hoc, honp]⟩

/-- C8 witness: from the state holding handles 3 and 4, failing connects
on valid index 0 release the old handles and leave both slots empty. -/
theorem open_connect_failure_leaves_slot_empty_witness :
    midi_open_input failConnectInEnv heldState 0 =
      (.error "connect failed", { heldState with inputConn := none },
        [.released { connId := 3 }])
  ∧ midi_open_output failConnectOutEnv heldState 0 =
      (.error "connect refused", { heldState with outputConn := none },
        [.released { connId := 4 }]) :=
  open_connect_failure_leaves_slot_empty failConnectInEnv failConnectOutEnv heldState
    0 0 samplePorts samplePorts { pid := 0 } { pid := 0 }
    "connect failed" "connect refused" rfl rfl rfl rfl rfl rfl rfl rfl

/-- C5: refresh enumerates inputs then outputs; when both enumerations
succeed it returns the snapshot holding exactly those descriptor lists,
and when either enumeration fails the whole refresh fails with that
enumeration error and no snapshot is produced. -/
theorem refresh_all_or_nothing
    (ie : MidiInputEnv) (oe : MidiOutputEnv) (ins outs : List MidiDeviceInfo)
    (hin : midi_list_inputs ie = .ok ins) (hout : midi_list_outputs oe = .ok outs)
    (ie2 : MidiInputEnv) (oe2 : MidiOutputEnv) (e2 : String)
    (hin2 : midi_list_inputs ie2 = .error e2)
    (ie3 : MidiInputEnv) (oe3 : MidiOutputEnv) (ins3 : List MidiDeviceInfo) (e3 : String)
    (hin3 : midi_list_inputs ie3 = .ok ins3)
    (hout3 : midi_list_outputs oe3 = .error e3) :
    midi_refresh ie oe = .ok { inputs := ins, outputs := outs }
  ∧ midi_refresh ie2 oe2 = .error e2
  ∧ midi_refresh ie3 oe3 = .error e3 := by
  refine ⟨?_, ?_, ?_⟩ <;> simp [midi_refresh, hin, hout, hin2, hin3, hout3]

/-- C5 witness: a healthy refresh returns exactly the three input and
three output descriptors enumerated, and a refresh whose input or
output enumeration fails returns that error and no snapshot. -/
theorem refresh_all_or_nothing_witness :
    midi_refresh sampleInEnv sampleOutEnv =
      .ok { inputs := sampleInputInfos, outputs := sampleOutputInfos }
  ∧ midi_refresh downInEnv sampleOutEnv = .error "driver unavailable"
  ∧ midi_refresh sampleInEnv downOutEnv = .error "driver unavailable" :=
  refresh_all_or_nothing sampleInEnv sampleOutEnv sampleInputInfos sampleOutputInfos
    rfl rfl downInEnv sampleOutEnv "driver unavailable" rfl
    sampleInEnv downOutEnv sampleInputInfos "driver unavailable" rfl rfl

/-- C6: enumeration lists the visible ports in platform order with ids
0..N-1 in that order; the descriptor at position k names the kth port,
with a per-port naming failure replaced by the placeholder Unknown
rather than aborting; enumeration fails, returning the platform error,
exactly when the subsystem handle cannot be created. -/
theorem list_ports_ordered_placeholder
    (ie : MidiInputEnv) (ips : List MidiPort) (hie : ie.new = .ok ips)
    (oe : MidiOutputEnv) (ops : List MidiPort) (hoe : oe.new = .ok ops)
    (ie2 : MidiInputEnv) (e2 : String) (hie2 : ie2.new = .error e2)
    (oe2 : MidiOutputEnv) (e3 : String) (hoe2 : oe2.new = .error e3) :
    (∃ l, midi_list_inputs ie = .ok l ∧ l.length = ips.length ∧
        ∀ k : Nat, l[k]? = (ips[k]?).map fun p =>
          { id := k, name := nameOrUnknown (ie.portName p), kind := "input" })
  ∧ (∃ l, midi_list_outputs oe = .ok l ∧ l.length = ops.length ∧
        ∀ k : Nat, l[k]? = (ops[k]?).map fun p =>
          { id := k, name := nameOrUnknown (oe.portName p), kind := "output" })
  ∧ midi_list_inputs ie2 = .error e2
  ∧ midi_list_outputs oe2 = .error e3 := by
  refine ⟨⟨ips.enum.map fun ip =>
        { id := ip.1, name := nameOrUnknown (ie.portName ip.2), kind := "input" },
      by simp [midi_list_inputs, hie], by simp [List.enum_length], ?_⟩,
    ⟨ops.enum.map fun ip =>
        { id := ip.1, name := nameOrUnknown (oe.portName ip.2), kind := "output" },
      by simp [midi_list_outputs, hoe], by simp [List.enum_length], ?_⟩,
    by simp [midi_list_inputs, hie2], by simp [midi_list_outputs, hoe2]⟩ <;>
  · intro k
    rw [List.getElem?_map, List.getElem?_enum]
    rcases ips[k]? with _ | p <;> rcases ops[k]? with _ | q <;> simp

/-- C6 witness: the sample input platform, whose port 1 has no
resolvable name, enumerates to ids 0, 1, 2 with Unknown at position 1,
and the platform whose handle creation fails propagates its error. -/
theorem list_ports_ordered_placeholder_witness :
    (∃ l, midi_list_inputs sampleInEnv = .ok l ∧ l.length = samplePorts.length ∧
        ∀ k : Nat, l[k]? = (samplePorts[k]?).map fun p =>
          { id := k, name := nameOrUnknown (sampleInEnv.portName p), kind := "input" })
  ∧ (∃ l, midi_list_outputs sampleOutEnv = .ok l ∧ l.length = samplePorts.length ∧
        ∀ k : Nat, l[k]? = (samplePorts[k]?).map fun p =>
          { id := k, name := nameOrUnknown (sampleOutEnv.portName p), kind := "output" })
  ∧ midi_list_inputs downInEnv = .error "driver unavailable"
  ∧ midi_list_outputs downOutEnv = .error "driver unavailable" :=
  list_ports_ordered_placeholder sampleInEnv samplePorts rfl sampleOutEnv samplePorts rfl
    downInEnv "driver unavailable" rfl downOutEnv "driver unavailable" rfl

end CueBoard
